import Mathlib

/-!
Verification of the credential lifecycle and automation core of the
Google-AI-Worker repository.

The Python source is shallowly embedded: every definition below is a direct
translation of a function in `src/` (file and line references are given in the
doc comments).  External collaborators (the token endpoint, Google Drive, the
chat API, the AI agent) are passed in as explicit function arguments, so the
embedded functions stay pure and executable.

Python datetimes are modelled by `PyDateTime` (naive wall-clock value vs.
timezone-aware absolute instant, both as integers); Python `None` by `Option`;
Python truthiness of an optional string by `optTruthy`; a Python function that
can raise by `Except String`.
-/

/-- A Python `datetime`: either naive (no tzinfo; the code interprets the wall
clock value as UTC) or timezone-aware.  An aware datetime is represented by
its absolute UTC instant, which is exactly what `astimezone(timezone.utc)`
exposes — the code never looks at an aware datetime except through that
conversion. -/
inductive PyDateTime where
  | naive (wall : Int)
  | aware (instant : Int)
deriving Repr, DecidableEq

/-- The value obtained by `astimezone(timezone.utc).replace(tzinfo=None)` for an
aware datetime, or the wall clock itself for a naive one (as in
`_normalize_expiry_to_naive_utc`, src/auth/google_oauth.py:118-122). -/
def PyDateTime.toNaiveUtc : PyDateTime → Int
  | .naive w => w
  | .aware t => t

/-- Python `a >= b` on two datetimes.  Comparing a naive with an aware datetime
raises `TypeError`, modelled by `none`. -/
def pyGE : PyDateTime → PyDateTime → Option Bool
  | .naive a, .naive b => some (decide (a ≥ b))
  | .aware a, .aware b => some (decide (a ≥ b))
  | _, _ => none

/-- Python truthiness of an optional string: `None` and `""` are falsy. -/
def optTruthy : Option String → Bool
  | none => false
  | some s => s ≠ ""

/-- Python `str.lower()` (ASCII case folding, which is all this codebase
compares). -/
def pyLower (s : String) : String := String.mk (s.toList.map Char.toLower)

/-- Python `str.strip()`: remove surrounding whitespace. -/
def pyStrip (s : String) : String :=
  String.mk (((s.toList.dropWhile Char.isWhitespace).reverse.dropWhile
    Char.isWhitespace).reverse)

/-- `google.oauth2.credentials.Credentials`, restricted to the fields this
codebase reads and writes. -/
structure Credentials where
  token : Option String
  refresh_token : Option String
  token_uri : String
  client_id : Option String
  client_secret : Option String
  scopes : List String
  expiry : Option PyDateTime
deriving Repr, DecidableEq

/-- The `expiry_ok` computation of `refresh_credentials_if_needed`
(src/auth/google_oauth.py:152-158): a naive expiry is compared directly with
naive-UTC `now`, an aware expiry is first converted to naive UTC.  `none`
would mean the comparison raised `TypeError`. -/
def expiry_ok_checked (e : PyDateTime) (now : Int) : Option Bool :=
  match e with
  | .naive w => pyGE (.naive w) (.naive now)
  | .aware t => pyGE (.naive t) (.naive now)

/-- The refresh decision of `refresh_credentials_if_needed`
(src/auth/google_oauth.py:149-163).  `now` is
`datetime.now(timezone.utc).replace(tzinfo=None)`.  `none` means a datetime
comparison raised. -/
def needs_refresh (c : Credentials) (now : Int) : Option Bool :=
  let ok? : Option Bool :=
    match c.expiry with
    | none => some false
    | some e => expiry_ok_checked e now
  match ok? with
  | none => none
  | some expiry_ok =>
    some (c.token.isNone || (c.token.isSome && c.expiry.isNone) ||
          (c.expiry.isSome && !expiry_ok))

/-- `refresh_credentials_if_needed` (src/auth/google_oauth.py:145-166).  The
network call `creds.refresh(Request())` is the explicit collaborator
`doRefresh`; its error is propagated.  (The `not creds` guard is vacuous here:
the embedded credential object always exists.) -/
def refresh_credentials_if_needed (doRefresh : Credentials → Except String Credentials)
    (now : Int) (c : Credentials) : Except String Credentials :=
  if !(optTruthy c.refresh_token) then .ok c
  else
    match needs_refresh c now with
    | none => .error "TypeError: cannot compare naive and aware datetimes"
    | some true => doRefresh c
    | some false => .ok c

/-- The refresh decision as the spec words it, amended at the boundary: refresh
is needed when the access token is absent, the expiry is absent, or the expiry
is STRICTLY BEFORE now (the source compares `expiry >= now`, so an expiry
exactly equal to now counts as fresh). -/
def refreshNeededSpec (c : Credentials) (now : Int) : Bool :=
  c.token.isNone || c.expiry.isNone ||
    (match c.expiry with
     | some e => decide (e.toNaiveUtc < now)
     | none => false)

theorem needs_refresh_eq_spec (c : Credentials) (now : Int) :
    needs_refresh c now = some (refreshNeededSpec c now) := by
  rcases c with ⟨tok, rt, tu, cid, cs, sc, exp⟩
  rcases exp with _ | e
  · cases tok <;> rfl
  · cases e <;> cases tok <;>
      simp [needs_refresh, refreshNeededSpec, expiry_ok_checked, pyGE,
        PyDateTime.toNaiveUtc, ← decide_not, not_le]

/-- A concrete credential whose expiry equals `now` exactly: refresh token and
access token present, `expiry` = naive 0, compared against `now` = 0. -/
def credAtNow : Credentials :=
  { token := some "tok", refresh_token := some "rt", token_uri := "u",
    client_id := some "cid", client_secret := some "cs", scopes := ["s1"],
    expiry := some (.naive 0) }

/-- C1 counterexample: the claim says refresh is needed when `expiry` is at or
before now, but for a credential whose expiry is exactly `now` the source
computes `expiry_ok = expiry >= now = True` and does NOT refresh: the refresh
collaborator is never invoked and the credential is returned unchanged. -/
theorem refresh_at_exact_expiry_not_refreshed :
    needs_refresh credAtNow 0 = some false ∧
    refresh_credentials_if_needed (fun _ => .error "refresh attempted") 0 credAtNow =
      .ok credAtNow :=
  ⟨rfl, rfl⟩

/-- C1 (amended): for every credential with a refresh token, the comparison
never raises, the refresh collaborator is invoked exactly when the access
token is absent, the expiry is absent, or the expiry is STRICTLY before now
(an expiry equal to now counts as fresh), and the decision is identical for a
timezone-aware UTC expiry and the equivalent naive value. -/
theorem refresh_decision_characterization
    (doRefresh : Credentials → Except String Credentials) (c : Credentials) (now : Int)
    (hrt : optTruthy c.refresh_token = true) :
    (needs_refresh c now).isSome = true ∧
    refresh_credentials_if_needed doRefresh now c =
      (if refreshNeededSpec c now then doRefresh c else .ok c) ∧
    (∀ t : Int,
      needs_refresh { c with expiry := some (.aware t) } now =
      needs_refresh { c with expiry := some (.naive t) } now) := by
  refine ⟨?_, ?_, ?_⟩
  · rw [needs_refresh_eq_spec]; rfl
  · rw [refresh_credentials_if_needed, hrt]
    simp only [needs_refresh_eq_spec, Bool.not_true, Bool.false_eq_true, if_false]
    cases h : refreshNeededSpec c now <;> simp [h]
  · intro t
    rw [needs_refresh_eq_spec, needs_refresh_eq_spec]
    simp [refreshNeededSpec, PyDateTime.toNaiveUtc]

/-- Witness for the amended C1 theorem at a concrete stale credential. -/
theorem refresh_decision_characterization_witness :
    optTruthy (Credentials.refresh_token
      { token := some "tok", refresh_token := some "rt", token_uri := "u",
        client_id := none, client_secret := none, scopes := [],
        expiry := some (.naive 1) }) = true ∧
    ((needs_refresh
      { token := some "tok", refresh_token := some "rt", token_uri := "u",
        client_id := none, client_secret := none, scopes := [],
        expiry := some (.naive 1) } 7).isSome = true ∧
    refresh_credentials_if_needed (fun cr => .ok { cr with token := some "new" }) 7
      { token := some "tok", refresh_token := some "rt", token_uri := "u",
        client_id := none, client_secret := none, scopes := [],
        expiry := some (.naive 1) } =
      (if refreshNeededSpec
        { token := some "tok", refresh_token := some "rt", token_uri := "u",
          client_id := none, client_secret := none, scopes := [],
          expiry := some (.naive 1) } 7
       then (fun cr : Credentials => Except.ok { cr with token := some "new" })
         { token := some "tok", refresh_token := some "rt", token_uri := "u",
           client_id := none, client_secret := none, scopes := [],
           expiry := some (.naive 1) }
       else .ok
         { token := some "tok", refresh_token := some "rt", token_uri := "u",
           client_id := none, client_secret := none, scopes := [],
           expiry := some (.naive 1) }) ∧
    (∀ t : Int,
      needs_refresh
        { token := some "tok", refresh_token := some "rt", token_uri := "u",
          client_id := none, client_secret := none, scopes := [],
          expiry := some (.aware t) } 7 =
      needs_refresh
        { token := some "tok", refresh_token := some "rt", token_uri := "u",
          client_id := none, client_secret := none, scopes := [],
          expiry := some (.naive t) } 7)) :=
  ⟨by decide, refresh_decision_characterization _ _ 7 (by decide)⟩

/-- C9: a credential whose refresh token is absent (or empty) is returned
unchanged and the call never raises, whatever the state of the access token
and expiry and whatever the refresh collaborator would do. -/
theorem refresh_without_refresh_token_unchanged
    (doRefresh : Credentials → Except String Credentials) (now : Int) (c : Credentials)
    (h : optTruthy c.refresh_token = false) :
    refresh_credentials_if_needed doRefresh now c = .ok c := by
  simp [refresh_credentials_if_needed, h]

/-- Witness for C9 at a concrete credential with no refresh token and an
expired access token, against an always-raising refresh collaborator. -/
theorem refresh_without_refresh_token_unchanged_witness :
    optTruthy (Credentials.refresh_token
      { token := some "tok", refresh_token := none, token_uri := "u",
        client_id := none, client_secret := none, scopes := [],
        expiry := some (.naive 0) }) = false ∧
    refresh_credentials_if_needed (fun _ => .error "refresh attempted") 5
      { token := some "tok", refresh_token := none, token_uri := "u",
        client_id := none, client_secret := none, scopes := [],
        expiry := some (.naive 0) } =
      .ok { token := some "tok", refresh_token := none, token_uri := "u",
            client_id := none, client_secret := none, scopes := [],
            expiry := some (.naive 0) } :=
  ⟨by decide, refresh_without_refresh_token_unchanged _ 5 _ (by decide)⟩

/-- Characters kept by the sanitizing regexes `[^a-zA-Z0-9_-]` in
src/services/orchestrator.py:28-38. -/
def isConvIdChar (c : Char) : Bool :=
  ('a' ≤ c && c ≤ 'z') || ('A' ≤ c && c ≤ 'Z') || ('0' ≤ c && c ≤ '9') ||
    c = '_' || c = '-'

/-- `re.sub(r"[^a-zA-Z0-9_-]", "_", user_id or "")[:40]`
(src/services/orchestrator.py:30 and 37). -/
def safeUserPart (user_id : String) : String :=
  String.mk ((user_id.toList.map (fun c => if isConvIdChar c then c else '_')).take 40)

/-- `re.sub(r"[^a-zA-Z0-9_-]", "-", space_name or "")[:60]`
(src/services/orchestrator.py:31). -/
def safeSpacePart (space_name : String) : String :=
  String.mk ((space_name.toList.map (fun c => if isConvIdChar c then c else '-')).take 60)

/-- `_conversation_id_for_chat` (src/services/orchestrator.py:28-32). -/
def _conversation_id_for_chat (user_id space_name : String) : String :=
  "ge-chat-" ++ safeUserPart user_id ++ "-" ++ safeSpacePart space_name

/-- `_conversation_id_for_workflow` (src/services/orchestrator.py:35-38). -/
def _conversation_id_for_workflow (user_id workflow : String) : String :=
  "ge-" ++ workflow ++ "-" ++ safeUserPart user_id

theorem string_append_cancel_left (p a b : String) (h : p ++ a = p ++ b) : a = b := by
  apply String.ext
  have hd := congrArg String.data h
  simp only [String.data_append] at hd
  exact List.append_cancel_left hd

theorem string_append_cancel_right (a b q : String) (h : a ++ q = b ++ q) : a = b := by
  apply String.ext
  have hd := congrArg String.data h
  simp only [String.data_append] at hd
  exact List.append_cancel_right hd

/-- C7 counterexample: the two distinct user ids `a@b.co` and `a.b@co`
sanitize to the same token, so both the chat and the workflow conversation
identifiers coincide — the identifier IS shared across these two users. -/
theorem conversation_id_collision :
    ("a@b.co" ≠ "a.b@co") ∧
    _conversation_id_for_chat "a@b.co" "spaces/x" =
      _conversation_id_for_chat "a.b@co" "spaces/x" ∧
    _conversation_id_for_workflow "a@b.co" "smart-inbox" =
      _conversation_id_for_workflow "a.b@co" "smart-inbox" :=
  ⟨by decide, by decide, by decide⟩

/-- C7 (amended): the conversation identifiers are deterministic functions of
their inputs, and they are distinct whenever the sanitized-and-truncated
components differ: two user ids with different sanitized forms get different
chat identifiers (same space) and different workflow identifiers (same
workflow), and two space names with different sanitized forms get different
chat identifiers for the same user.  (Distinct raw inputs that sanitize to the
same token DO collide, as the counterexample shows.) -/
theorem conversation_id_distinctness
    (u1 u2 s s1 s2 u w : String)
    (hU : safeUserPart u1 ≠ safeUserPart u2)
    (hS : safeSpacePart s1 ≠ safeSpacePart s2) :
    _conversation_id_for_chat u1 s ≠ _conversation_id_for_chat u2 s ∧
    _conversation_id_for_chat u s1 ≠ _conversation_id_for_chat u s2 ∧
    _conversation_id_for_workflow u1 w ≠ _conversation_id_for_workflow u2 w := by
  refine ⟨fun h => hU ?_, fun h => hS ?_, fun h => hU ?_⟩
  · have h1 := string_append_cancel_right _ _ _ h
    have h2 := string_append_cancel_right _ _ _ h1
    exact string_append_cancel_left _ _ _ h2
  · exact string_append_cancel_left _ _ _ h
  · exact string_append_cancel_left _ _ _ h

/-- Witness for the amended C7 theorem at concrete users, spaces and workflow. -/
theorem conversation_id_distinctness_witness :
    safeUserPart "alice@x.co" ≠ safeUserPart "bob@y.co" ∧
    safeSpacePart "spaces/AAA" ≠ safeSpacePart "spaces/BBB" ∧
    (_conversation_id_for_chat "alice@x.co" "spaces/AAA" ≠
       _conversation_id_for_chat "bob@y.co" "spaces/AAA" ∧
     _conversation_id_for_chat "carol@z.co" "spaces/AAA" ≠
       _conversation_id_for_chat "carol@z.co" "spaces/BBB" ∧
     _conversation_id_for_workflow "alice@x.co" "smart-inbox" ≠
       _conversation_id_for_workflow "bob@y.co" "smart-inbox") :=
  ⟨by decide, by decide,
   conversation_id_distinctness "alice@x.co" "bob@y.co" "spaces/AAA" "spaces/AAA"
     "spaces/BBB" "carol@z.co" "smart-inbox" (by decide) (by decide)⟩

/-- Python `str.split()` with no argument: split on whitespace, discarding
empty pieces. -/
def pySplitWs (s : String) : List String :=
  (s.split (fun c => c.isWhitespace)).filter (fun p => p ≠ "")

/-- The JSON body returned by the token endpoint, restricted to the keys
`_parse_token_response` and `exchange_code_for_credentials` read; `none`
means the key is absent. -/
structure TokenResponse where
  access_token : Option String
  refresh_token : Option String
  expires_in : Option Int
  scope : Option String
  error : Option String
  error_description : Option String
deriving Repr, DecidableEq

/-- `_parse_token_response` (src/auth/google_oauth.py:58-74), with the OAuth
client configuration passed explicitly.  `data["access_token"]` raises
`KeyError` when the key is absent; `expires_in` defaults to 3600; an empty or
missing `scope` string falls back to the configured `GOOGLE_SCOPES`; expiry is
the aware instant `now + expires_in` when `expires_in` is truthy (nonzero). -/
def _parse_token_response (GOOGLE_SCOPES : List String)
    (GOOGLE_CLIENT_ID GOOGLE_CLIENT_SECRET : Option String) (now : Int)
    (data : TokenResponse) : Except String Credentials :=
  match data.access_token with
  | none => .error "KeyError: access_token"
  | some token =>
    let expires_in := data.expires_in.getD 3600
    let scope_str := data.scope.getD ""
    let scopes := if scope_str ≠ "" then pySplitWs scope_str else GOOGLE_SCOPES
    let expiry := if expires_in ≠ 0 then some (PyDateTime.aware (now + expires_in)) else none
    .ok { token := some token, refresh_token := data.refresh_token,
          token_uri := "https://oauth2.googleapis.com/token",
          client_id := GOOGLE_CLIENT_ID, client_secret := GOOGLE_CLIENT_SECRET,
          scopes := scopes, expiry := expiry }

/-- `exchange_code_for_credentials` (src/auth/google_oauth.py:77-97), with the
HTTP POST to the token endpoint abstracted into its observable outcome: did
`raise_for_status` fire (`http_error`), and which JSON body came back.  Note
that no comparison of the returned scopes against the requested scopes is
performed anywhere. -/
def exchange_code_for_credentials (GOOGLE_SCOPES : List String)
    (GOOGLE_CLIENT_ID GOOGLE_CLIENT_SECRET : Option String) (now : Int)
    (http_error : Bool) (data : TokenResponse) : Except String Credentials :=
  if http_error then .error "HTTPStatusError"
  else if data.error.isSome then
    .error (data.error_description.getD (data.error.getD "Unknown error"))
  else _parse_token_response GOOGLE_SCOPES GOOGLE_CLIENT_ID GOOGLE_CLIENT_SECRET now data

/-- C8: for any token response carrying an access token, no error field and a
nonempty scope string, the exchange succeeds and the resulting credential's
scopes are exactly the whitespace-split scope list the server returned; the
outcome is the same whatever scope list was requested (it does not depend on
`GOOGLE_SCOPES`), so reordered or superset scope strings are accepted as-is. -/
theorem exchange_accepts_server_scopes
    (requested other : List String) (cid cs : Option String) (now : Int)
    (data : TokenResponse) (tok s : String)
    (h1 : data.error = none) (h2 : data.access_token = some tok)
    (h3 : data.scope = some s) (h4 : s ≠ "") :
    (∃ c : Credentials,
       exchange_code_for_credentials requested cid cs now false data = .ok c ∧
       c.scopes = pySplitWs s ∧ c.token = some tok) ∧
    exchange_code_for_credentials requested cid cs now false data =
      exchange_code_for_credentials other cid cs now false data := by
  refine ⟨⟨{ token := some tok, refresh_token := data.refresh_token,
             token_uri := "https://oauth2.googleapis.com/token",
             client_id := cid, client_secret := cs, scopes := pySplitWs s,
             expiry := if data.expires_in.getD 3600 ≠ 0 then
               some (.aware (now + data.expires_in.getD 3600)) else none },
          ?_, ?_, ?_⟩, ?_⟩ <;>
    simp [exchange_code_for_credentials, _parse_token_response, h1, h2, h3, h4]

/-- Witness for C8: the server reorders and extends the requested scopes
`["a", "b"]` into `"b a c"`; the exchange succeeds with exactly the server's
scopes. -/
theorem exchange_accepts_server_scopes_witness :
    TokenResponse.error
      { access_token := some "at", refresh_token := some "rt",
        expires_in := some 100, scope := some "b a c",
        error := none, error_description := none } = none ∧
    ((∃ c : Credentials,
       exchange_code_for_credentials ["a", "b"] (some "cid") (some "cs") 0 false
         { access_token := some "at", refresh_token := some "rt",
           expires_in := some 100, scope := some "b a c",
           error := none, error_description := none } = .ok c ∧
       c.scopes = pySplitWs "b a c" ∧ c.token = some "at") ∧
     exchange_code_for_credentials ["a", "b"] (some "cid") (some "cs") 0 false
       { access_token := some "at", refresh_token := some "rt",
         expires_in := some 100, scope := some "b a c",
         error := none, error_description := none } =
     exchange_code_for_credentials ["z"] (some "cid") (some "cs") 0 false
       { access_token := some "at", refresh_token := some "rt",
         expires_in := some 100, scope := some "b a c",
         error := none, error_description := none }) :=
  ⟨rfl, exchange_accepts_server_scopes ["a", "b"] ["z"] (some "cid") (some "cs") 0
     _ "at" "b a c" rfl rfl rfl (by decide)⟩

/-- A Python credentials dict as built by `credentials_to_dict` and by
`load_credentials` (src/storage.py:184-193): every key is populated at every
construction site in this codebase, so each field holds the stored value,
`none` standing for a stored `None`; `expiry`, written only when known, is the
ISO string represented by the datetime it denotes (a `...Z` /
`...+00:00`-suffixed string parses as aware, a bare one as naive). -/
structure CredentialsDict where
  token : Option String
  refresh_token : Option String
  client_id : Option String
  client_secret : Option String
  token_uri : String
  scopes : List String
  expiry : Option PyDateTime
deriving Repr, DecidableEq

/-- `credentials_to_dict` (src/auth/google_oauth.py:100-115): the expiry, when
present, is serialized as its naive-UTC value with a `Z` suffix, so the stored
string denotes the aware instant `toNaiveUtc`. -/
def credentials_to_dict (c : Credentials) : CredentialsDict :=
  { token := c.token, refresh_token := c.refresh_token,
    token_uri := c.token_uri, client_id := c.client_id,
    client_secret := c.client_secret, scopes := c.scopes,
    expiry := c.expiry.map (fun e => .aware e.toNaiveUtc) }

/-- `dict_to_credentials` (src/auth/google_oauth.py:125-142): the stored expiry
is parsed and normalized to naive UTC.  The `.get` defaults for client id,
client secret, token uri and scopes never fire on the dicts this codebase
builds (the keys are always present), so they do not appear here; a malformed
expiry string is likewise unrepresentable because the program only ever writes
well-formed ones. -/
def dict_to_credentials (cd : CredentialsDict) : Credentials :=
  { token := cd.token, refresh_token := cd.refresh_token,
    token_uri := cd.token_uri, client_id := cd.client_id,
    client_secret := cd.client_secret, scopes := cd.scopes,
    expiry := cd.expiry.map (fun e => .naive e.toNaiveUtc) }

/-- The local bootstrap record written by `save_credentials`
(src/storage.py:119-129). -/
structure Bootstrap where
  refresh_token : Option String
  client_id : Option String
  client_secret : Option String
  token_uri : String
  scopes : List String
  token : Option String
  expiry : Option PyDateTime
deriving Repr, DecidableEq

/-- The pure content of `save_credentials` (src/storage.py:110-134): the
minimal bootstrap, with the cached `token`/`expiry` pair included only when
both are truthy together.  The best-effort Drive mirror (lines 136-145)
swallows every exception and does not affect local state, so it has no
observable effect here. -/
def save_credentials_bootstrap (cd : CredentialsDict) : Bootstrap :=
  let base : Bootstrap :=
    { refresh_token := cd.refresh_token, client_id := cd.client_id,
      client_secret := cd.client_secret, token_uri := cd.token_uri,
      scopes := cd.scopes, token := none, expiry := none }
  if optTruthy cd.token && cd.expiry.isSome then
    { base with token := cd.token, expiry := cd.expiry }
  else base

/-- The local credential state of one user: the bootstrap file, if present,
and the legacy single-file `creds_<user>.json`, if present. -/
structure StoreState where
  bootstrapFile : Option Bootstrap
  legacyFile : Option CredentialsDict
deriving Repr, DecidableEq

/-- `save_credentials` as a state transformer on the user's local state: it
(re)writes the bootstrap file and touches nothing else — in particular a
legacy file is left in place; only `load_credentials` removes it. -/
def save_credentials (cd : CredentialsDict) (st : StoreState) : StoreState :=
  { st with bootstrapFile := some (save_credentials_bootstrap cd) }

/-- `delete_credentials` (src/storage.py:224-230): unlinks the bootstrap file
only. -/
def delete_credentials (st : StoreState) : StoreState × Bool :=
  match st.bootstrapFile with
  | some _ => ({ st with bootstrapFile := none }, true)
  | none => (st, false)

/-- The error classification of src/storage.py:198-199: the lowercased message
contains `scope` or `invalid_grant`. -/
def _is_cred_dead_error (e : String) : Bool :=
  decide ("scope".toList <:+: (pyLower e).toList) ||
  decide ("invalid_grant".toList <:+: (pyLower e).toList)

/-- `load_credentials` (src/storage.py:148-221).  A legacy
`creds_<user>.json` file (lines 153-162) wins over everything else: its
contents are re-saved as the bootstrap, the legacy file is deleted, and its
contents are returned directly.  The unreadable/invalid-JSON reads of
lines 168-180 cannot arise because the modelled files are structured data.
`doRefresh` is the token-endpoint collaborator; `driveCreds` is the
credentials entry of the user's Drive blob, `none` when the Drive read raises
or holds nothing (lines 213-220 swallow every Drive error). -/
def load_credentials (doRefresh : Credentials → Except String Credentials)
    (now : Int) (driveCreds : Option CredentialsDict) (st : StoreState) :
    Except String (StoreState × Option CredentialsDict) :=
  match st.legacyFile with
  | some old_data =>
    .ok ({ bootstrapFile := some (save_credentials_bootstrap old_data),
           legacyFile := none }, some old_data)
  | none =>
    match st.bootstrapFile with
    | none => .ok (st, none)
    | some b =>
      let cd0 : CredentialsDict :=
        { token := b.token, refresh_token := b.refresh_token,
          client_id := b.client_id, client_secret := b.client_secret,
          token_uri := b.token_uri, scopes := b.scopes, expiry := b.expiry }
      let creds := dict_to_credentials cd0
      match refresh_credentials_if_needed doRefresh now creds with
      | .error e =>
        if _is_cred_dead_error e then
          .ok ((delete_credentials st).1, none)
        else .error e
      | .ok creds2 =>
        let cd := credentials_to_dict creds2
        let st2 : StoreState :=
          if optTruthy creds2.token && optTruthy creds2.refresh_token then
            { st with bootstrapFile := some { b with
                token := creds2.token,
                expiry := match creds2.expiry with
                  | some e2 => some e2
                  | none => b.expiry,
                refresh_token := creds2.refresh_token } }
          else st
        if !(optTruthy cd.refresh_token) then
          match driveCreds with
          | some d => .ok (st2, some d)
          | none => .ok (st2, some cd)
        else .ok (st2, some cd)

/-- C3: when a bootstrap is present and the refresh step raises, an error the
source classifies as scope-changed / invalid-grant (lowercased message
contains "scope" or "invalid_grant") deletes the local bootstrap and makes
`load_credentials` return absent, forcing re-login; any other refresh error is
propagated to the caller unchanged. -/
theorem load_deletes_dead_credentials
    (doRefresh : Credentials → Except String Credentials) (now : Int)
    (driveCreds : Option CredentialsDict) (b : Bootstrap) (e : String)
    (h : refresh_credentials_if_needed doRefresh now
           (dict_to_credentials
             { token := b.token, refresh_token := b.refresh_token,
               client_id := b.client_id, client_secret := b.client_secret,
               token_uri := b.token_uri, scopes := b.scopes, expiry := b.expiry })
         = .error e) :
    (_is_cred_dead_error e = true →
       load_credentials doRefresh now driveCreds
           { bootstrapFile := some b, legacyFile := none } =
         .ok ({ bootstrapFile := none, legacyFile := none }, none)) ∧
    (_is_cred_dead_error e = false →
       load_credentials doRefresh now driveCreds
           { bootstrapFile := some b, legacyFile := none } =
         .error e) := by
  constructor <;> intro hc <;>
    simp [load_credentials, h, hc, delete_credentials]

/-- Witness for C3: a bootstrap with a refresh token but no cached access
token forces a refresh; the endpoint reports `invalid_grant`, and the load
deletes the bootstrap and returns absent. -/
theorem load_deletes_dead_credentials_witness :
    refresh_credentials_if_needed (fun _ => .error "invalid_grant: token revoked") 0
      (dict_to_credentials
        { token := (none : Option String), refresh_token := some "rt",
          client_id := some "cid", client_secret := some "cs",
          token_uri := "u", scopes := ["s"], expiry := none }) =
      .error "invalid_grant: token revoked" ∧
    _is_cred_dead_error "invalid_grant: token revoked" = true ∧
    load_credentials (fun _ => .error "invalid_grant: token revoked") 0 none
      { bootstrapFile := some (
          { refresh_token := some "rt", client_id := some "cid",
            client_secret := some "cs", token_uri := "u", scopes := ["s"],
            token := none, expiry := none } : Bootstrap),
        legacyFile := none } =
      .ok ({ bootstrapFile := none, legacyFile := none }, none) :=
  ⟨rfl, by decide,
   (load_deletes_dead_credentials (fun _ => .error "invalid_grant: token revoked") 0
      none
      { refresh_token := some "rt", client_id := some "cid",
        client_secret := some "cs", token_uri := "u", scopes := ["s"],
        token := none, expiry := none }
      "invalid_grant: token revoked" rfl).1 (by decide)⟩

/-- Every refresh performed through `refresh_credentials_if_needed` completes
and preserves the refresh token, client identity and scopes whenever the
endpoint collaborator does. -/
theorem refresh_preserves_fields
    (doRefresh : Credentials → Except String Credentials) (now : Int)
    (c : Credentials)
    (hpres : ∀ cr : Credentials, ∃ c2 : Credentials, doRefresh cr = .ok c2 ∧
      c2.refresh_token = cr.refresh_token ∧ c2.client_id = cr.client_id ∧
      c2.client_secret = cr.client_secret ∧ c2.scopes = cr.scopes) :
    ∃ c2 : Credentials, refresh_credentials_if_needed doRefresh now c = .ok c2 ∧
      c2.refresh_token = c.refresh_token ∧ c2.client_id = c.client_id ∧
      c2.client_secret = c.client_secret ∧ c2.scopes = c.scopes := by
  by_cases hro : optTruthy c.refresh_token = true
  · cases hns : refreshNeededSpec c now
    · refine ⟨c, ?_, rfl, rfl, rfl, rfl⟩
      unfold refresh_credentials_if_needed
      rw [needs_refresh_eq_spec, hns]
      simp [hro]
    · obtain ⟨c2, hc2, p1, p2, p3, p4⟩ := hpres c
      refine ⟨c2, ?_, p1, p2, p3, p4⟩
      unfold refresh_credentials_if_needed
      rw [needs_refresh_eq_spec, hns]
      simp [hro, hc2]
  · refine ⟨c, ?_, rfl, rfl, rfl, rfl⟩
    have hro2 : optTruthy c.refresh_token = false := by simpa using hro
    unfold refresh_credentials_if_needed
    simp [hro2]

/-- When the only local file is a bootstrap `b` and the refresh step returns
`c2`, the load returns `credentials_to_dict c2` (with the conditional
write-back), falling back to Drive only when `c2` carries no refresh token —
which the hypothesis rules out by making the Drive read empty. -/
theorem load_on_bootstrap_ok
    (doRefresh : Credentials → Except String Credentials) (now : Int)
    (driveCreds : Option CredentialsDict) (b : Bootstrap) (c2 : Credentials)
    (h : refresh_credentials_if_needed doRefresh now
          (dict_to_credentials
            { token := b.token, refresh_token := b.refresh_token,
              client_id := b.client_id, client_secret := b.client_secret,
              token_uri := b.token_uri, scopes := b.scopes, expiry := b.expiry })
         = .ok c2)
    (hfb : optTruthy c2.refresh_token = false → driveCreds = none) :
    load_credentials doRefresh now driveCreds
        { bootstrapFile := some b, legacyFile := none } =
      .ok ((if optTruthy c2.token && optTruthy c2.refresh_token then
              ({ bootstrapFile := some { b with
                   token := c2.token,
                   expiry := match c2.expiry with
                     | some e2 => some e2
                     | none => b.expiry,
                   refresh_token := c2.refresh_token },
                 legacyFile := none } : StoreState)
            else { bootstrapFile := some b, legacyFile := none }),
           some (credentials_to_dict c2)) := by
  unfold load_credentials
  simp only [h]
  by_cases hrt : optTruthy c2.refresh_token = true
  · simp [credentials_to_dict, hrt]
  · have hrt2 : optTruthy c2.refresh_token = false := by simpa using hrt
    rw [hfb hrt2]
    simp [credentials_to_dict, hrt2]

/-- C4 counterexample: three concrete states and environments in which
loading right after saving does NOT return the saved credential's fields, so
the claim's universal round-trip fails as stated.  (1) A leftover legacy
`creds_<user>.json` wins over the just-saved bootstrap: the load returns the
legacy contents, whose refresh token and client id differ from the saved
ones.  (2) A saved credential without the cached access-token/expiry pair
forces a token-endpoint refresh on load; when the endpoint rotates the
refresh token, the loaded credential carries the rotated token, not the
original.  (3) A saved credential without a refresh token makes the load fall
back to the Drive blob, which may hold an entirely different client id. -/
theorem save_load_roundtrip_counterexample :
    (load_credentials (fun _ => .error "refresh attempted") 0 none
        (save_credentials
          { token := some "at", refresh_token := some "rt",
            client_id := some "cid", client_secret := some "cs",
            token_uri := "u", scopes := ["s"], expiry := some (.aware 100) }
          { bootstrapFile := none,
            legacyFile := some
              { token := none, refresh_token := some "old_rt",
                client_id := some "old_cid", client_secret := some "old_cs",
                token_uri := "u", scopes := ["old"], expiry := none } }) =
      .ok ({ bootstrapFile := some
               { refresh_token := some "old_rt", client_id := some "old_cid",
                 client_secret := some "old_cs", token_uri := "u",
                 scopes := ["old"], token := none, expiry := none },
             legacyFile := none },
           some { token := none, refresh_token := some "old_rt",
                  client_id := some "old_cid", client_secret := some "old_cs",
                  token_uri := "u", scopes := ["old"], expiry := none }) ∧
     (some "old_rt" ≠ some "rt" ∧ some "old_cid" ≠ some "cid")) ∧
    (load_credentials (fun c => .ok { c with refresh_token := some "rt2" }) 0 none
        (save_credentials
          { token := none, refresh_token := some "rt",
            client_id := some "cid", client_secret := some "cs",
            token_uri := "u", scopes := ["s"], expiry := none }
          { bootstrapFile := none, legacyFile := none }) =
      .ok ({ bootstrapFile := some
               { refresh_token := some "rt", client_id := some "cid",
                 client_secret := some "cs", token_uri := "u",
                 scopes := ["s"], token := none, expiry := none },
             legacyFile := none },
           some { token := none, refresh_token := some "rt2",
                  client_id := some "cid", client_secret := some "cs",
                  token_uri := "u", scopes := ["s"], expiry := none }) ∧
     some "rt2" ≠ some "rt") ∧
    (load_credentials (fun _ => .error "refresh attempted") 0
        (some { token := some "x", refresh_token := some "drt",
                client_id := some "other", client_secret := some "ocs",
                token_uri := "u", scopes := ["o"], expiry := none })
        (save_credentials
          { token := some "at", refresh_token := none,
            client_id := some "cid", client_secret := some "cs",
            token_uri := "u", scopes := ["s"], expiry := some (.aware 100) }
          { bootstrapFile := none, legacyFile := none }) =
      .ok ({ bootstrapFile := some
               { refresh_token := none, client_id := some "cid",
                 client_secret := some "cs", token_uri := "u",
                 scopes := ["s"], token := some "at",
                 expiry := some (.aware 100) },
             legacyFile := none },
           some { token := some "x", refresh_token := some "drt",
                  client_id := some "other", client_secret := some "ocs",
                  token_uri := "u", scopes := ["o"], expiry := none }) ∧
     some "other" ≠ some "cid") :=
  ⟨⟨rfl, by decide, by decide⟩, ⟨rfl, by decide⟩, ⟨rfl, by decide⟩⟩

/-- C4 (amended): for EVERY credential, the bootstrap written by save carries
the cached access-token/expiry pair only when both were truthy together at
save time — never one without the other; and, in a state with no legacy
credential file, when every token-endpoint refresh the load performs succeeds
preserving the refresh token, client identity and scopes, and when the Drive
fallback (consulted only when the refresh token is absent) yields nothing,
loading right after saving succeeds and returns a credential carrying the
original refresh_token, client_id, client_secret and scopes. -/
theorem save_load_roundtrip
    (cd : CredentialsDict) (doRefresh : Credentials → Except String Credentials)
    (now : Int) (driveCreds : Option CredentialsDict) (st : StoreState)
    (hleg : st.legacyFile = none)
    (hpres : ∀ cr : Credentials, ∃ c2 : Credentials, doRefresh cr = .ok c2 ∧
      c2.refresh_token = cr.refresh_token ∧ c2.client_id = cr.client_id ∧
      c2.client_secret = cr.client_secret ∧ c2.scopes = cr.scopes)
    (hdrive : optTruthy cd.refresh_token = false → driveCreds = none) :
    (∀ cd2 : CredentialsDict,
       (save_credentials_bootstrap cd2).token.isSome =
       (save_credentials_bootstrap cd2).expiry.isSome) ∧
    (∃ st2 r, load_credentials doRefresh now driveCreds (save_credentials cd st) =
        .ok (st2, some r) ∧
      r.refresh_token = cd.refresh_token ∧ r.client_id = cd.client_id ∧
      r.client_secret = cd.client_secret ∧ r.scopes = cd.scopes) := by
  constructor
  · intro cd2
    unfold save_credentials_bootstrap
    by_cases h : (optTruthy cd2.token && cd2.expiry.isSome) = true
    · have h1 : optTruthy cd2.token = true ∧ cd2.expiry.isSome = true := by
        simpa using h
      cases ht : cd2.token with
      | none => rw [ht] at h1; simp [optTruthy] at h1
      | some s =>
        rw [ht] at h1
        simp [h1.1, h1.2]
    · simp [h]
  · have hbase : (save_credentials_bootstrap cd).refresh_token = cd.refresh_token ∧
        (save_credentials_bootstrap cd).client_id = cd.client_id ∧
        (save_credentials_bootstrap cd).client_secret = cd.client_secret ∧
        (save_credentials_bootstrap cd).scopes = cd.scopes := by
      unfold save_credentials_bootstrap
      by_cases h : (optTruthy cd.token && cd.expiry.isSome) = true <;> simp [h]
    obtain ⟨hb1, hb2, hb3, hb4⟩ := hbase
    obtain ⟨c2, hc2, p1, p2, p3, p4⟩ := refresh_preserves_fields doRefresh now
      (dict_to_credentials
        { token := (save_credentials_bootstrap cd).token,
          refresh_token := (save_credentials_bootstrap cd).refresh_token,
          client_id := (save_credentials_bootstrap cd).client_id,
          client_secret := (save_credentials_bootstrap cd).client_secret,
          token_uri := (save_credentials_bootstrap cd).token_uri,
          scopes := (save_credentials_bootstrap cd).scopes,
          expiry := (save_credentials_bootstrap cd).expiry }) hpres
    have q1 : c2.refresh_token = cd.refresh_token := by
      rw [p1]; simpa [dict_to_credentials] using hb1
    have q2 : c2.client_id = cd.client_id := by
      rw [p2]; simpa [dict_to_credentials] using hb2
    have q3 : c2.client_secret = cd.client_secret := by
      rw [p3]; simpa [dict_to_credentials] using hb3
    have q4 : c2.scopes = cd.scopes := by
      rw [p4]; simpa [dict_to_credentials] using hb4
    have hload := load_on_bootstrap_ok doRefresh now driveCreds
      (save_credentials_bootstrap cd) c2 hc2 (fun hfalse => hdrive (q1 ▸ hfalse))
    have hst : save_credentials cd st =
        { bootstrapFile := some (save_credentials_bootstrap cd),
          legacyFile := none } := by
      rcases st with ⟨bf, lf⟩
      simp only [save_credentials]
      simp at hleg
      rw [hleg]
    rw [hst]
    exact ⟨_, credentials_to_dict c2, hload,
      by simp [credentials_to_dict, q1],
      by simp [credentials_to_dict, q2],
      by simp [credentials_to_dict, q3],
      by simp [credentials_to_dict, q4]⟩

/-- Witness for the amended C4 theorem: a credential saved WITHOUT the cached
access-token/expiry pair, so the load genuinely exercises the token-endpoint
refresh (which here issues a fresh access token and keeps the rest). -/
theorem save_load_roundtrip_witness :
    StoreState.legacyFile { bootstrapFile := none, legacyFile := none } = none ∧
    ((∀ cd2 : CredentialsDict,
       (save_credentials_bootstrap cd2).token.isSome =
       (save_credentials_bootstrap cd2).expiry.isSome) ∧
     (∃ st2 r, load_credentials
          (fun c => .ok { c with token := some "new", expiry := some (.naive 99) })
          0 none
          (save_credentials
            { token := none, refresh_token := some "rt",
              client_id := some "cid", client_secret := some "cs",
              token_uri := "u", scopes := ["s1", "s2"], expiry := none }
            { bootstrapFile := none, legacyFile := none }) =
          .ok (st2, some r) ∧
        r.refresh_token = some "rt" ∧ r.client_id = some "cid" ∧
        r.client_secret = some "cs" ∧ r.scopes = ["s1", "s2"])) :=
  ⟨rfl,
   save_load_roundtrip
     { token := none, refresh_token := some "rt",
       client_id := some "cid", client_secret := some "cs",
       token_uri := "u", scopes := ["s1", "s2"], expiry := none }
     (fun c => .ok { c with token := some "new", expiry := some (.naive 99) })
     0 none { bootstrapFile := none, legacyFile := none }
     rfl (fun cr => ⟨{ cr with token := some "new", expiry := some (.naive 99) },
       rfl, rfl, rfl, rfl, rfl⟩) (fun _ => rfl)⟩

/-- A Google Chat message as surfaced by `fetch_chat_messages`, restricted to
the keys `run_chat_auto_reply` reads; `none` stands for a missing key or a
stored `None`. -/
structure ChatMessage where
  creator_name : Option String
  creator_email : Option String
  creator : Option String
  text : Option String
  name : Option String
  reply_parent : Option String
deriving Repr, DecidableEq

/-- The `_is_own` predicate of `run_chat_auto_reply`
(src/services/orchestrator.py:289-297): the message is the current user's own
when its creator name matches `users/<gaia_id>` (gaia id truthy), its creator
email matches the user's email case-insensitively (email truthy), or the
creator name is the synthetic app author `users/app`. -/
def _is_own (gaia_id : Option String) (user_email_lower : String)
    (m : ChatMessage) : Bool :=
  let cn := m.creator_name.getD ""
  (optTruthy gaia_id && decide (cn = "users/" ++ gaia_id.getD "")) ||
  ((user_email_lower ≠ "") &&
    decide (pyLower (m.creator_email.getD "") = user_email_lower)) ||
  decide (cn = "users/app")

/-- One entry of the `results` list built by the reply loop of
`run_chat_auto_reply` (src/services/orchestrator.py:317-339). -/
structure ReplyItem where
  message : Option String
  original : Option String
  reply : Option String
  error : Option String
  posted : Option Bool
deriving Repr, DecidableEq

/-- The dict returned by `run_chat_auto_reply`, instrumented with the number
of calls made to the agent collaborator (`self.oshaani.invoke_with_context_sync`)
so that "zero agent calls" is an observable fact. -/
structure AutoReplyResult where
  space : String
  replies : List ReplyItem
  skipped : Option String
  agentCalls : Nat
deriving Repr, DecidableEq

/-- The reply loop `for msg in eligible[:reply_to_latest]`
(src/services/orchestrator.py:317-339): a message whose stripped text is empty
is skipped before any agent call (when `skip_empty`); an empty agent response
is recorded as a per-message error; otherwise the reply is posted to the
message's thread (`reply_parent`), falling back to the space.  Returns the
result entries and the number of agent calls. -/
def autoReplyLoop (agent : ChatMessage → String) (post_result : ChatMessage → Bool)
    (skip_empty : Bool) : List ChatMessage → List ReplyItem × Nat
  | [] => ([], 0)
  | msg :: rest =>
    let tail := autoReplyLoop agent post_result skip_empty rest
    let text := pyStrip (msg.text.getD "")
    if skip_empty && text = "" then tail
    else
      let reply_text := pyStrip (agent msg)
      if reply_text = "" then
        ({ message := msg.name, original := none, reply := none,
           error := some "Empty agent response", posted := none } :: tail.1,
         tail.2 + 1)
      else
        ({ message := msg.name, original := some (text.take 100),
           reply := some reply_text, error := none,
           posted := some (post_result msg) } :: tail.1,
         tail.2 + 1)

/-- `run_chat_auto_reply` (src/services/orchestrator.py:259-341), with the
collaborators passed explicitly: `fetched_space_type` is what
`get_space_type` would return (consulted only when the `space_type` argument
is falsy), `chat` is the newest-first message list `fetch_chat_messages`
returns, `gaia_id` is `get_current_user_gaia_id`, `agent` maps a message to
the agent's response text, and `post_result` tells whether
`post_chat_message` returns a value.  The internal
`refresh_credentials_if_needed` call touches only the credential, so it is
not modelled here (the claims about this function presuppose the fetch
succeeded). -/
def run_chat_auto_reply (space_name : String) (user_id : Option String)
    (reply_to_latest : Nat) (skip_empty : Bool) (space_type : Option String)
    (dm_only : Bool) (fetched_space_type : String) (chat : List ChatMessage)
    (gaia_id : Option String) (agent : ChatMessage → String)
    (post_result : ChatMessage → Bool) : AutoReplyResult :=
  let st := if optTruthy space_type then space_type.getD "" else fetched_space_type
  if dm_only && !(decide (st = "DIRECT_MESSAGE")) then
    { space := space_name, replies := [],
      skipped := some "Only one-to-one (DM) chats are supported", agentCalls := 0 }
  else
    let user_email_lower := pyLower (user_id.getD "")
    let ownHead := match chat with
      | m0 :: _ => _is_own gaia_id user_email_lower m0
      | [] => false
    if ownHead then
      { space := space_name, replies := [],
        skipped := some "Last message is your own", agentCalls := 0 }
    else
      let eligible := chat.filter (fun m => !(_is_own gaia_id user_email_lower m))
      if eligible.isEmpty then
        { space := space_name, replies := [],
          skipped := some "No messages from others to reply to", agentCalls := 0 }
      else
        let looped := autoReplyLoop agent post_result skip_empty
          (eligible.take reply_to_latest)
        { space := space_name, replies := looped.1, skipped := none,
          agentCalls := looped.2 }

/-- C5: whenever the newest fetched message is the current user's own — by
gaia id, by email, or by the synthetic `users/app` author — the run returns a
skipped result: no reply entry is produced and the agent collaborator is
never invoked, whatever the space classification, limits and flags are. -/
theorem auto_reply_self_loop_guard
    (space_name : String) (user_id : Option String) (reply_to_latest : Nat)
    (skip_empty : Bool) (space_type : Option String) (dm_only : Bool)
    (fetched_space_type : String) (m0 : ChatMessage) (rest : List ChatMessage)
    (gaia_id : Option String) (agent : ChatMessage → String)
    (post_result : ChatMessage → Bool)
    (hown : _is_own gaia_id (pyLower (user_id.getD "")) m0 = true) :
    ((run_chat_auto_reply space_name user_id reply_to_latest skip_empty space_type
        dm_only fetched_space_type (m0 :: rest) gaia_id agent post_result).skipped.isSome
      = true) ∧
    (run_chat_auto_reply space_name user_id reply_to_latest skip_empty space_type
        dm_only fetched_space_type (m0 :: rest) gaia_id agent post_result).replies
      = [] ∧
    (run_chat_auto_reply space_name user_id reply_to_latest skip_empty space_type
        dm_only fetched_space_type (m0 :: rest) gaia_id agent post_result).agentCalls
      = 0 := by
  unfold run_chat_auto_reply
  by_cases hdm : (dm_only && !(decide
      ((if optTruthy space_type then space_type.getD "" else fetched_space_type) =
        "DIRECT_MESSAGE"))) = true
  · simp [hdm]
  · simp only [hdm]
    simp [hown]

/-- Witness for C5: a DM space whose newest message was authored by the
current user (gaia id match); the run is skipped with no replies and no agent
calls even though an eligible-looking older message exists. -/
theorem auto_reply_self_loop_guard_witness :
    _is_own (some "g1") (pyLower ((some "u@x.co" : Option String).getD ""))
      { creator_name := some "users/g1", creator_email := some "u@x.co",
        creator := some "Me", text := some "latest", name := some "m1",
        reply_parent := none } = true ∧
    ((run_chat_auto_reply "spaces/s" (some "u@x.co") 1 true
        (some "DIRECT_MESSAGE") true "DIRECT_MESSAGE"
        [{ creator_name := some "users/g1", creator_email := some "u@x.co",
           creator := some "Me", text := some "latest", name := some "m1",
           reply_parent := none },
         { creator_name := some "users/g2", creator_email := some "o@y.co",
           creator := some "Other", text := some "hi", name := some "m2",
           reply_parent := none }]
        (some "g1") (fun _ => "a reply") (fun _ => true)).skipped.isSome = true ∧
     (run_chat_auto_reply "spaces/s" (some "u@x.co") 1 true
        (some "DIRECT_MESSAGE") true "DIRECT_MESSAGE"
        [{ creator_name := some "users/g1", creator_email := some "u@x.co",
           creator := some "Me", text := some "latest", name := some "m1",
           reply_parent := none },
         { creator_name := some "users/g2", creator_email := some "o@y.co",
           creator := some "Other", text := some "hi", name := some "m2",
           reply_parent := none }]
        (some "g1") (fun _ => "a reply") (fun _ => true)).replies = [] ∧
     (run_chat_auto_reply "spaces/s" (some "u@x.co") 1 true
        (some "DIRECT_MESSAGE") true "DIRECT_MESSAGE"
        [{ creator_name := some "users/g1", creator_email := some "u@x.co",
           creator := some "Me", text := some "latest", name := some "m1",
           reply_parent := none },
         { creator_name := some "users/g2", creator_email := some "o@y.co",
           creator := some "Other", text := some "hi", name := some "m2",
           reply_parent := none }]
        (some "g1") (fun _ => "a reply") (fun _ => true)).agentCalls = 0) :=
  ⟨by decide,
   auto_reply_self_loop_guard "spaces/s" (some "u@x.co") 1 true
     (some "DIRECT_MESSAGE") true "DIRECT_MESSAGE" _ _ (some "g1")
     (fun _ => "a reply") (fun _ => true) (by decide)⟩

/-- C6: with `dm_only` in effect and the space not classified as a one-to-one
direct-message space (the explicit `space_type` argument when truthy,
otherwise the fetched classification), the run returns the DM-restriction
skip with no replies and zero agent calls, for every message list. -/
theorem auto_reply_dm_restriction
    (space_name : String) (user_id : Option String) (reply_to_latest : Nat)
    (skip_empty : Bool) (space_type : Option String)
    (fetched_space_type : String) (chat : List ChatMessage)
    (gaia_id : Option String) (agent : ChatMessage → String)
    (post_result : ChatMessage → Bool)
    (hst : (if optTruthy space_type then space_type.getD "" else fetched_space_type)
           ≠ "DIRECT_MESSAGE") :
    run_chat_auto_reply space_name user_id reply_to_latest skip_empty space_type
        true fetched_space_type chat gaia_id agent post_result =
      { space := space_name, replies := [],
        skipped := some "Only one-to-one (DM) chats are supported",
        agentCalls := 0 } := by
  unfold run_chat_auto_reply
  simp [hst]

/-- Witness for C6: a named multi-person space (`SPACE`) with a juicy eligible
message is skipped under `dm_only` with zero agent calls. -/
theorem auto_reply_dm_restriction_witness :
    ((if optTruthy (some "SPACE") then (some "SPACE" : Option String).getD ""
      else "SPACE") ≠ "DIRECT_MESSAGE") ∧
    run_chat_auto_reply "spaces/s" (some "u@x.co") 3 true (some "SPACE") true
        "SPACE"
        [{ creator_name := some "users/g2", creator_email := some "o@y.co",
           creator := some "Other", text := some "please reply", name := some "m2",
           reply_parent := none }]
        (some "g1") (fun _ => "a reply") (fun _ => true) =
      { space := "spaces/s", replies := [],
        skipped := some "Only one-to-one (DM) chats are supported",
        agentCalls := 0 } :=
  ⟨by decide,
   auto_reply_dm_restriction "spaces/s" (some "u@x.co") 3 true (some "SPACE")
     "SPACE" _ (some "g1") (fun _ => "a reply") (fun _ => true) (by decide)⟩

/-- A chat space as returned by `fetch_chat_spaces`, restricted to the keys
the automation pass reads. -/
structure ChatSpace where
  name : String
  displayName : Option String
  type : Option String
deriving Repr, DecidableEq

/-- The status recorded for one workflow in `results["workflows"]`. -/
inductive WfStatus where
  | ok
  | error (e : String)
deriving Repr, DecidableEq

/-- One entry of the per-space `chat_results` list
(src/services/automation.py:82-92). -/
structure ChatSpaceEntry where
  space : String
  error : Option String
deriving Repr, DecidableEq

/-- The aggregated result of `run_all_workflows_for_user`
(src/services/automation.py:34): one optional status per fixed workflow key
(absent when the workflow was not included), the per-space chat results, and
the collected error strings. -/
structure RunAllResults where
  user_id : String
  smart_inbox : Option WfStatus
  document_intelligence : Option WfStatus
  chat_auto_reply : Option WfStatus
  chat_spaces : List ChatSpaceEntry
  errors : List String
deriving Repr, DecidableEq

/-- The collaborator outcomes one `run_all_workflows_for_user` call can
observe: the outcome of each orchestrator workflow, of `fetch_chat_spaces`,
and of the per-space auto-reply. -/
structure WorkflowEnv where
  smart_inbox : Except String Unit
  document_intelligence : Except String Unit
  fetch_spaces : Except String (List ChatSpace)
  auto_reply : ChatSpace → Except String Unit

/-- `run_all_workflows_for_user` (src/services/automation.py:16-103): each of
the three workflow categories runs inside its own try/except; an exception
becomes an error status plus an error string and the next category still
runs; inside the chat category each space has its own try/except
(lines 83-92). -/
def run_all_workflows_for_user (user_id : String) (env : WorkflowEnv)
    (include_smart_inbox include_document_intelligence include_chat_auto_reply : Bool)
    (chat_spaces_limit : Nat) : RunAllResults :=
  let r0 : RunAllResults :=
    { user_id := user_id, smart_inbox := none, document_intelligence := none,
      chat_auto_reply := none, chat_spaces := [], errors := [] }
  let r1 :=
    if include_smart_inbox then
      match env.smart_inbox with
      | .ok _ => { r0 with smart_inbox := some .ok }
      | .error e =>
        { r0 with
          smart_inbox := some (.error e),
          errors := r0.errors ++ ["smart_inbox: " ++ e] }
    else r0
  let r2 :=
    if include_document_intelligence then
      match env.document_intelligence with
      | .ok _ => { r1 with document_intelligence := some .ok }
      | .error e =>
        { r1 with
          document_intelligence := some (.error e),
          errors := r1.errors ++ ["document_intelligence: " ++ e] }
    else r1
  if include_chat_auto_reply then
    match env.fetch_spaces with
    | .error e =>
      { r2 with
        chat_auto_reply := some (.error e),
        errors := r2.errors ++ ["chat_auto_reply: " ++ e] }
    | .ok all_spaces =>
      let spaces := all_spaces.filter (fun s => decide (s.type = some "DIRECT_MESSAGE"))
      let entries := (spaces.take chat_spaces_limit).map (fun s =>
        match env.auto_reply s with
        | .ok _ => ({ space := s.displayName.getD s.name, error := none } : ChatSpaceEntry)
        | .error e => { space := s.displayName.getD s.name, error := some e })
      { r2 with chat_auto_reply := some .ok, chat_spaces := entries }
  else r2

/-- Status of one workflow category as a function of its own outcome alone. -/
def wfStatusOf : Except String Unit → WfStatus
  | .ok _ => .ok
  | .error e => .error e

/-- Error-list contribution of one workflow category. -/
def wfErrListOf (nm : String) : Except String Unit → List String
  | .ok _ => []
  | .error e => [nm ++ ": " ++ e]

/-- Status of the chat category: an error only when `fetch_chat_spaces` (the
code outside the per-space try/except) fails. -/
def chatStatusOf : Except String (List ChatSpace) → WfStatus
  | .ok _ => .ok
  | .error e => .error e

/-- Error-list contribution of the chat category. -/
def chatErrListOf : Except String (List ChatSpace) → List String
  | .ok _ => []
  | .error e => ["chat_auto_reply: " ++ e]

/-- Per-space chat entries: one entry per direct-message space up to the
limit, carrying that space's own error if its auto-reply raised. -/
def chatEntriesOf (env : WorkflowEnv) (chat_spaces_limit : Nat) : List ChatSpaceEntry :=
  match env.fetch_spaces with
  | .error _ => []
  | .ok all_spaces =>
    (((all_spaces.filter (fun s => decide (s.type = some "DIRECT_MESSAGE"))).take
        chat_spaces_limit).map (fun s =>
      match env.auto_reply s with
      | .ok _ => ({ space := s.displayName.getD s.name, error := none } : ChatSpaceEntry)
      | .error e => { space := s.displayName.getD s.name, error := some e }))

/-- What each step of the per-user body of `_run_automation_for_all_users`
(src/main.py:136-171) can observe for one user.  `automation_enabled` is the
outcome of `get_user_automation_enabled`, `cred_load` of `load_credentials`
(`ok true` = credentials present), `toggles` of `get_user_workflow_toggles`
(smart_inbox, document_intelligence, chat_auto_reply), `oshaani_key` of
`get_user_oshaani_key`; each of those can raise.  `workflows` holds the
collaborator outcomes for the user's own workflow run. -/
structure UserEnv where
  automation_enabled : Except String Bool
  cred_load : Except String Bool
  toggles : Except String (Bool × Bool × Bool)
  oshaani_key : Except String (Option String)
  workflows : WorkflowEnv

/-- Outcome of processing one user in the automation pass. -/
inductive UserStep where
  | processed (r : RunAllResults)
  | skipped
  | failed (e : String)

/-- The body of the per-user try/except of `_run_automation_for_all_users`
(src/main.py:136-175): any exception in the toggle/credential/key reads makes
the user count as failed; a falsy toggle or absent credential counts as
skipped; otherwise the user's workflows run (with `chat_auto_reply` included
only when both the global flag and the user's toggle are on, and the default
`chat_spaces_limit = 10`) and the user counts as processed. -/
def processUser (include_chat : Bool) (uid : String) (env : UserEnv) : UserStep :=
  match env.automation_enabled with
  | .error e => .failed e
  | .ok false => .skipped
  | .ok true =>
    match env.cred_load with
    | .error e => .failed e
    | .ok false => .skipped
    | .ok true =>
      match env.toggles with
      | .error e => .failed e
      | .ok (inc_si, inc_di, tog_car) =>
        match env.oshaani_key with
        | .error e => .failed e
        | .ok _ =>
          .processed (run_all_workflows_for_user uid env.workflows
            inc_si inc_di (tog_car && include_chat) 10)

/-- The `processed` / `skipped` / `failed` counters of one automation pass. -/
structure PassSummary where
  processed : Nat
  skipped : Nat
  failed : Nat
deriving Repr, DecidableEq

/-- The user loop of `_run_automation_for_all_users` (src/main.py:135-176). -/
def passLoop (include_chat : Bool) (envOf : String → UserEnv) :
    List String → PassSummary → PassSummary
  | [], acc => acc
  | u :: rest, acc =>
    let acc2 := match processUser include_chat u (envOf u) with
      | .processed _ => { acc with processed := acc.processed + 1 }
      | .skipped => { acc with skipped := acc.skipped + 1 }
      | .failed _ => { acc with failed := acc.failed + 1 }
    passLoop include_chat envOf rest acc2

/-- `_run_automation_for_all_users` (src/main.py:118-176): nothing runs when
the global flag is off; otherwise every known user is processed in turn,
each inside its own try/except. -/
def _run_automation_for_all_users (AUTOMATION_ENABLED include_chat : Bool)
    (users : List String) (envOf : String → UserEnv) : PassSummary :=
  if !AUTOMATION_ENABLED then { processed := 0, skipped := 0, failed := 0 }
  else passLoop include_chat envOf users { processed := 0, skipped := 0, failed := 0 }

/-- Whether a user's step came out as processed / skipped / failed. -/
def isProcessedStep : UserStep → Bool
  | .processed _ => true
  | _ => false

def isSkippedStep : UserStep → Bool
  | .skipped => true
  | _ => false

def isFailedStep : UserStep → Bool
  | .failed _ => true
  | _ => false

theorem passLoop_counts (ic : Bool) (envOf : String → UserEnv)
    (users : List String) (acc : PassSummary) :
    passLoop ic envOf users acc =
      { processed := acc.processed +
          (users.filter (fun u => isProcessedStep (processUser ic u (envOf u)))).length,
        skipped := acc.skipped +
          (users.filter (fun u => isSkippedStep (processUser ic u (envOf u)))).length,
        failed := acc.failed +
          (users.filter (fun u => isFailedStep (processUser ic u (envOf u)))).length } := by
  induction users generalizing acc with
  | nil => simp [passLoop]
  | cons u rest ih =>
    cases h : processUser ic u (envOf u) <;>
      simp [passLoop, h, ih, isProcessedStep, isSkippedStep, isFailedStep,
        List.filter_cons] <;>
      omega

/-- C2: failure isolation.  First conjunct: one automation pass (global flag
on) counts every user purely by that user's own step outcome — a user whose
credential load, toggle read or key read raises is counted failed, and every
other user is still counted by its own outcome, wherever the failing user
sits in the list.  Second conjunct: within one user's run with all three
categories included, each category's status is determined only by its own
collaborator outcome, an exception in one category is recorded as the
per-workflow error string `<name>: <e>` in the aggregated errors, and the
other categories' statuses and the per-space chat entries are unaffected. -/
theorem automation_failure_isolation
    (users : List String) (envOf : String → UserEnv) (ic : Bool)
    (uid : String) (wf : WorkflowEnv) (limit : Nat) :
    _run_automation_for_all_users true ic users envOf =
      { processed :=
          (users.filter (fun u => isProcessedStep (processUser ic u (envOf u)))).length,
        skipped :=
          (users.filter (fun u => isSkippedStep (processUser ic u (envOf u)))).length,
        failed :=
          (users.filter (fun u => isFailedStep (processUser ic u (envOf u)))).length } ∧
    run_all_workflows_for_user uid wf true true true limit =
      { user_id := uid,
        smart_inbox := some (wfStatusOf wf.smart_inbox),
        document_intelligence := some (wfStatusOf wf.document_intelligence),
        chat_auto_reply := some (chatStatusOf wf.fetch_spaces),
        chat_spaces := chatEntriesOf wf limit,
        errors := wfErrListOf "smart_inbox" wf.smart_inbox ++
          wfErrListOf "document_intelligence" wf.document_intelligence ++
          chatErrListOf wf.fetch_spaces } := by
  constructor
  · unfold _run_automation_for_all_users
    simp [passLoop_counts]
  · unfold run_all_workflows_for_user
    cases hsi : wf.smart_inbox <;> cases hdi : wf.document_intelligence <;>
      cases hcs : wf.fetch_spaces <;>
      simp [hsi, hdi, hcs, wfStatusOf, wfErrListOf, chatStatusOf,
        chatErrListOf, chatEntriesOf]

/-- A JSON value as stored under the `enabled` / `automation_enabled` keys. -/
inductive JVal where
  | null
  | bool (b : Bool)
  | str (s : String)
  | num (n : Int)
deriving Repr, DecidableEq

/-- `_parse_enabled_value` (src/storage.py:369-377): `None` reads as enabled,
a boolean as itself, a string by stripping surrounding whitespace,
lowercasing and comparing with the four enabling words, and anything else by
Python `bool` truthiness. -/
def _parse_enabled_value : JVal → Bool
  | .null => true
  | .bool b => b
  | .str s =>
    decide (pyLower (pyStrip s) = "true") || decide (pyLower (pyStrip s) = "1") ||
    decide (pyLower (pyStrip s) = "on") || decide (pyLower (pyStrip s) = "yes")
  | .num n => decide (n ≠ 0)

/-- The state of the local per-user automation flag file as
`get_user_automation_enabled` observes it (src/storage.py:384-392): absent,
unreadable (OSError), invalid JSON, or valid JSON with or without the
`enabled` key. -/
inductive LocalFlagFile where
  | absent
  | unreadable
  | invalidJson
  | content (enabled : Option JVal)
deriving Repr, DecidableEq

/-- The outcome of the Drive read inside the try/except of
`get_user_automation_enabled` (src/storage.py:396-405): the read raised, the
blob is falsy, the blob lacks the `automation_enabled` key, or it holds a
value. -/
inductive DriveRead where
  | raises
  | absent
  | noKey
  | val (v : JVal)
deriving Repr, DecidableEq

/-- `get_user_automation_enabled` (src/storage.py:380-405).  `cred_load` is
the outcome of `load_credentials` (`ok true` = credentials present); it is
consulted — and its exception would propagate uncaught — only after the
local file yielded no stored preference. -/
def get_user_automation_enabled (localFile : LocalFlagFile)
    (cred_load : Except String Bool) (driveRead : DriveRead) :
    Except String Bool :=
  match localFile with
  | .content (some v) => .ok (_parse_enabled_value v)
  | _ =>
    match cred_load with
    | .error e => .error e
    | .ok false => .ok true
    | .ok true =>
      match driveRead with
      | .raises => .ok true
      | .absent => .ok true
      | .noKey => .ok true
      | .val v => .ok (_parse_enabled_value v)

/-- C10 counterexample: the stored string " true " is not one of "true", "1",
"on", "yes" even case-insensitively (it differs by surrounding whitespace),
so the claim reads it as disabled; the source strips whitespace first and
reads it as ENABLED, both from the local flag file and from the Drive blob. -/
theorem automation_enabled_whitespace_counterexample :
    (pyLower " true " ≠ "true" ∧ pyLower " true " ≠ "1" ∧
     pyLower " true " ≠ "on" ∧ pyLower " true " ≠ "yes") ∧
    get_user_automation_enabled (.content (some (.str " true "))) (.ok true) .noKey =
      .ok true ∧
    get_user_automation_enabled .absent (.ok true) (.val (.str " true ")) =
      .ok true :=
  ⟨by decide, rfl, rfl⟩

/-- C10 (amended): the flag read fails open to enabled — whenever the local
flag file is absent, unreadable, invalid JSON or lacks the `enabled` key, the
function returns enabled if the user has no stored credentials, and likewise
if the Drive read raises, the blob is absent, or the blob lacks the key; and
a stored string value is interpreted by stripping surrounding whitespace and
lowercasing it, with "true", "1", "on", "yes" meaning enabled and any other
string meaning disabled — both for the local file and for the Drive value. -/
theorem automation_enabled_fail_open
    (dr : DriveRead) (cl : Except String Bool) (s : String) :
    (get_user_automation_enabled .absent (.ok false) dr = .ok true) ∧
    (get_user_automation_enabled .unreadable (.ok false) dr = .ok true) ∧
    (get_user_automation_enabled .invalidJson (.ok false) dr = .ok true) ∧
    (get_user_automation_enabled (.content none) (.ok false) dr = .ok true) ∧
    (get_user_automation_enabled .absent (.ok true) .raises = .ok true) ∧
    (get_user_automation_enabled .unreadable (.ok true) .raises = .ok true) ∧
    (get_user_automation_enabled .invalidJson (.ok true) .raises = .ok true) ∧
    (get_user_automation_enabled (.content none) (.ok true) .raises = .ok true) ∧
    (get_user_automation_enabled .absent (.ok true) .absent = .ok true) ∧
    (get_user_automation_enabled .unreadable (.ok true) .absent = .ok true) ∧
    (get_user_automation_enabled .invalidJson (.ok true) .absent = .ok true) ∧
    (get_user_automation_enabled (.content none) (.ok true) .absent = .ok true) ∧
    (get_user_automation_enabled .absent (.ok true) .noKey = .ok true) ∧
    (get_user_automation_enabled .unreadable (.ok true) .noKey = .ok true) ∧
    (get_user_automation_enabled .invalidJson (.ok true) .noKey = .ok true) ∧
    (get_user_automation_enabled (.content none) (.ok true) .noKey = .ok true) ∧
    (get_user_automation_enabled (.content (some (.str s))) cl dr =
      .ok (decide (pyLower (pyStrip s) = "true") || decide (pyLower (pyStrip s) = "1") ||
           decide (pyLower (pyStrip s) = "on") || decide (pyLower (pyStrip s) = "yes"))) ∧
    (get_user_automation_enabled .absent (.ok true) (.val (.str s)) =
      .ok (decide (pyLower (pyStrip s) = "true") || decide (pyLower (pyStrip s) = "1") ||
           decide (pyLower (pyStrip s) = "on") || decide (pyLower (pyStrip s) = "yes"))) ∧
    (get_user_automation_enabled .unreadable (.ok true) (.val (.str s)) =
      .ok (decide (pyLower (pyStrip s) = "true") || decide (pyLower (pyStrip s) = "1") ||
           decide (pyLower (pyStrip s) = "on") || decide (pyLower (pyStrip s) = "yes"))) ∧
    (get_user_automation_enabled .invalidJson (.ok true) (.val (.str s)) =
      .ok (decide (pyLower (pyStrip s) = "true") || decide (pyLower (pyStrip s) = "1") ||
           decide (pyLower (pyStrip s) = "on") || decide (pyLower (pyStrip s) = "yes"))) ∧
    (get_user_automation_enabled (.content none) (.ok true) (.val (.str s)) =
      .ok (decide (pyLower (pyStrip s) = "true") || decide (pyLower (pyStrip s) = "1") ||
           decide (pyLower (pyStrip s) = "on") || decide (pyLower (pyStrip s) = "yes"))) :=
  ⟨rfl, rfl, rfl, rfl, rfl, rfl, rfl, rfl, rfl, rfl, rfl, rfl, rfl, rfl, rfl,
   rfl, rfl, rfl, rfl, rfl, rfl⟩
